import Mathlib

/-!
Verification of the payment lifecycle core of `402ok-mcp`.

The development shallowly embeds the three components of the core:

* the binary64 price conversion `Math.floor(parseFloat(price) * 1_000_000)`
  used by the payment-requirement builders (`src/server.ts`);
* the facilitator gateway `callFacilitator` together with the request
  signing of `generateOKXHeaders` / `makeOKXRequest`
  (`src/utils/facilitator.ts`, `src/utils/okx-signature.ts`);
* the per-call orchestrator installed as the `CallToolRequestSchema`
  handler by `createPaidMcpHandler` (`src/server.ts`).

IEEE-754 binary64 arithmetic is modelled exactly over unnormalised
integer fractions (numerator, positive denominator), so every number
step is plain integer arithmetic and every statement kernel-decidable.
The model covers the normal range of finite doubles plus NaN, which is
all the price pipeline can reach for the inputs under study; JavaScript
`parseFloat` is modelled on its decimal-literal fragment (sign, digits,
fraction, exponent, longest valid prefix, anything else giving NaN).
-/

namespace X402

/-- An unnormalised fraction `n / d`; every constructor used in this file
keeps `d > 0`, so comparisons may multiply through by denominators. -/
structure Q2 where
  n : ℤ
  d : ℤ
deriving DecidableEq

/-- `a < b` on fractions with positive denominators. -/
def Q2.lt (a b : Q2) : Bool := a.n * b.d < b.n * a.d

/-- `a ≤ b` on fractions with positive denominators. -/
def Q2.le (a b : Q2) : Bool := a.n * b.d ≤ b.n * a.d

/-- Exact product of two fractions. -/
def Q2.mul (a b : Q2) : Q2 := ⟨a.n * b.n, a.d * b.d⟩

/-- The rational value of a fraction. -/
def Q2.val (a : Q2) : ℚ := (a.n : ℚ) / (a.d : ℚ)

/-- Floor of a fraction with positive denominator, as an integer. -/
def Q2.floor (a : Q2) : ℤ := Int.fdiv a.n a.d

/-- Fuel-bounded search for the binary exponent of a fraction `q ≥ 1`:
returns `e` with `2 ^ e ≤ q < 2 ^ (e + 1)` once `q` has been halved into
`[1, 2)`. -/
def expSearchUp : Nat → Q2 → ℤ → ℤ
  | 0, _, e => e
  | fuel + 1, q, e =>
    if Q2.lt q ⟨2, 1⟩ then e else expSearchUp fuel ⟨q.n, q.d * 2⟩ (e + 1)

/-- Fuel-bounded search for the binary exponent of a fraction `0 < q < 1`. -/
def expSearchDown : Nat → Q2 → ℤ → ℤ
  | 0, _, e => e
  | fuel + 1, q, e =>
    if Q2.le ⟨1, 1⟩ q then e else expSearchDown fuel ⟨q.n * 2, q.d⟩ (e - 1)

/-- Floor of the base-2 logarithm of a positive fraction. -/
def floorLog2 (q : Q2) : ℤ :=
  if Q2.le ⟨1, 1⟩ q then expSearchUp 4200 q 0 else expSearchDown 4200 q 0

/-- Round a fraction (positive denominator) to the nearest integer,
ties to even. -/
def roundNearestEven (x : Q2) : ℤ :=
  let fl := x.floor
  let r := x.n - fl * x.d
  if 2 * r < x.d then fl
  else if x.d < 2 * r then fl + 1
  else if fl.emod 2 = 0 then fl else fl + 1

/-- Scale a fraction by `2 ^ k` for an integer `k`. -/
def q2scale (k : ℤ) (a : Q2) : Q2 :=
  if 0 ≤ k then ⟨a.n * (2 ^ k.toNat : ℕ), a.d⟩ else ⟨a.n, a.d * (2 ^ (-k).toNat : ℕ)⟩

/-- Round an exact fraction to the nearest IEEE-754 binary64 value
(round to nearest, ties to even). The model covers the normal range;
overflow and subnormals do not arise for the prices under study. -/
def rnd64 (q : Q2) : Q2 :=
  if q.n = 0 then ⟨0, 1⟩
  else
    let a : Q2 := ⟨|q.n|, q.d⟩
    let e := floorLog2 a
    let m := roundNearestEven (q2scale (52 - e) a)
    let s : ℤ := if q.n < 0 then -1 else 1
    q2scale (e - 52) ⟨s * m, 1⟩

/-- A JavaScript number: NaN or a finite binary64 value given as an
exact fraction. -/
inductive F64 where
  | nan
  | val (q : Q2)
deriving DecidableEq

/-- Binary64 multiplication: the exact product, rounded back to a
binary64 value; NaN propagates. -/
def f64mul : F64 → F64 → F64
  | F64.val a, F64.val b => F64.val (rnd64 (Q2.mul a b))
  | _, _ => F64.nan

/-- `Math.floor`: floors a finite value, propagates NaN. -/
def mathFloor : F64 → F64
  | F64.nan => F64.nan
  | F64.val q => F64.val ⟨q.floor, 1⟩

/-- `Number.prototype.toString` restricted to the values the price
pipeline produces: NaN prints as `"NaN"`, integer-valued finite numbers
print in decimal. -/
def f64toString : F64 → String
  | F64.nan => "NaN"
  | F64.val q => toString q.floor

/-- Numeric value of a decimal digit character. -/
def digitVal (c : Char) : ℕ := c.toNat - '0'.toNat

/-- Consume leading decimal digits: accumulated value, digit count, rest. -/
def takeDigits : List Char → ℕ → ℕ → ℕ × ℕ × List Char
  | [], acc, count => (acc, count, [])
  | c :: rest, acc, count =>
    if c.isDigit then takeDigits rest (acc * 10 + digitVal c) (count + 1)
    else (acc, count, c :: rest)

/-- Parse an optional exponent suffix after `e`/`E`; JavaScript keeps the
mantissa and ignores the exponent marker when no digits follow it. -/
def parseExpPart (cs : List Char) : ℤ :=
  match cs with
  | '-' :: r => (match takeDigits r 0 0 with
      | (ev, ec, _) => if ec = 0 then 0 else -(ev : ℤ))
  | '+' :: r => (match takeDigits r 0 0 with
      | (ev, ec, _) => if ec = 0 then 0 else (ev : ℤ))
  | _ => (match takeDigits cs 0 0 with
      | (ev, ec, _) => if ec = 0 then 0 else (ev : ℤ))

/-- Scale a fraction by `10 ^ k` for an integer `k`. -/
def q2scale10 (k : ℤ) (a : Q2) : Q2 :=
  if 0 ≤ k then ⟨a.n * (10 ^ k.toNat : ℕ), a.d⟩ else ⟨a.n, a.d * (10 ^ (-k).toNat : ℕ)⟩

/-- JavaScript `parseFloat` on its decimal-literal fragment: skip
whitespace, read an optional sign, digits, an optional fraction and an
optional exponent as the longest valid prefix, and round the exact
decimal value to binary64; a prefix with no digits gives NaN. -/
def jsParseFloat (s : String) : F64 :=
  let cs := s.toList.dropWhile (fun c => c.isWhitespace)
  let sgn : ℤ := match cs with
    | '-' :: _ => -1
    | _ => 1
  let cs1 := match cs with
    | '-' :: r => r
    | '+' :: r => r
    | _ => cs
  match takeDigits cs1 0 0 with
  | (ip, ic, cs2) =>
    let fracPart := match cs2 with
      | '.' :: r => takeDigits r 0 0
      | _ => (0, 0, cs2)
    match fracPart with
    | (fp, fc, cs3) =>
      if ic + fc = 0 then F64.nan
      else
        let exp : ℤ := match cs3 with
          | 'e' :: r => parseExpPart r
          | 'E' :: r => parseExpPart r
          | _ => 0
        let mantissa : Q2 := ⟨sgn * ((ip : ℤ) * (10 ^ fc : ℕ) + (fp : ℤ)), (10 ^ fc : ℕ)⟩
        F64.val (rnd64 (q2scale10 exp mantissa))

/-- The amount conversion of `createPaidMcpHandler`:
`Math.floor(parseFloat(cfg.price) * 1_000_000).toString()`. -/
def priceInSmallestUnit (price : String) : String :=
  f64toString (mathFloor (f64mul (jsParseFloat price) (F64.val ⟨1000000, 1⟩)))

end X402

namespace X402

/-! ### JavaScript helpers and JSON serialisation

Error payloads are produced by `JSON.stringify` on fixed object shapes;
the serialisers below reproduce its output (insertion-order keys, no
whitespace, standard string escaping). -/

/-- JavaScript `a || b` for an optional string `a`: the empty string is
falsy, so it also falls back to the default. -/
def jsOr (o : Option String) (d : String) : String :=
  match o with
  | some s => if s = "" then d else s
  | none => d

/-- Truthiness of an optional boolean field (`undefined` is falsy). -/
def jsTruthy (o : Option Bool) : Bool :=
  match o with
  | some b => b
  | none => false

/-- Truthiness of an optional string (`undefined` and `""` are falsy). -/
def jsStrTruthy (o : Option String) : Bool :=
  match o with
  | some s => s ≠ ""
  | none => false

/-- JavaScript `toUpperCase` on ASCII strings, defined by structural
recursion over the character list. -/
def jsToUpper (s : String) : String := String.mk (s.toList.map Char.toUpper)

/-- Lower-case hexadecimal digit. -/
def hexDigit (n : ℕ) : Char :=
  if n < 10 then Char.ofNat ('0'.toNat + n) else Char.ofNat ('a'.toNat + (n - 10))

/-- Four-digit hexadecimal rendering used by `\uXXXX` escapes. -/
def hex4 (n : ℕ) : String :=
  String.mk [hexDigit (n / 4096 % 16), hexDigit (n / 256 % 16),
             hexDigit (n / 16 % 16), hexDigit (n % 16)]

/-- `JSON.stringify` escaping of a single character. -/
def jescapeChar (c : Char) : String :=
  if c = '"' then "\\\""
  else if c = '\\' then "\\\\"
  else if c = '\x08' then "\\b"
  else if c = '\t' then "\\t"
  else if c = '\n' then "\\n"
  else if c = '\x0c' then "\\f"
  else if c = '\r' then "\\r"
  else if c.toNat < 32 then "\\u" ++ hex4 c.toNat
  else String.singleton c

/-- `JSON.stringify` escaping of a string body. -/
def jescape (s : String) : String := String.join (s.toList.map jescapeChar)

/-- A JSON string literal. -/
def jsonStr (s : String) : String := "\"" ++ jescape s ++ "\""

/-! ### Data model (`src/types.ts`) -/

/-- The optional `config` block of a payment configuration. The free-form
`metadata` record is opaque to the core and not modelled. -/
structure PaymentConfigExtra where
  description : Option String
deriving DecidableEq

/-- One per-network payment configuration (interface `PaymentConfig`).
`chainId` is an integer-valued JavaScript number. -/
structure PaymentConfig where
  price : String
  chainId : ℕ
  token : String
  usdcName : String
  usdcVersion : String
  network : String
  config : Option PaymentConfigExtra
deriving DecidableEq

/-- OKX API credentials (interface `OKXCredentials`). -/
structure OKXCredentials where
  apiKey : String
  secretKey : String
  passphrase : String
deriving DecidableEq

/-- Facilitator backend kind. -/
inductive FacType where
  | okx
  | standard
deriving DecidableEq

/-- Facilitator configuration (interface `FacilitatorConfig`). -/
structure FacilitatorConfig where
  url : String
  type : Option FacType
  okxCredentials : Option OKXCredentials
deriving DecidableEq

/-- Server configuration (interface `ServerConfig`); `facilitators` is a
string-keyed object, modelled as an association list. -/
structure ServerConfig where
  recipient : String
  facilitators : List (String × FacilitatorConfig)
deriving DecidableEq

/-- The `extra` block of a payment requirement. -/
structure ReqExtra where
  name : String
  version : String
deriving DecidableEq

/-- Payment requirements in x402 format (interface `PaymentRequirements`);
`network` is absent (`none`) in the requirement built for facilitator
calls and present in each `accepts` entry of the 402 challenge. -/
structure PaymentRequirements where
  scheme : String
  network : Option String
  maxAmountRequired : String
  payTo : String
  asset : String
  maxTimeoutSeconds : ℕ
  resource : String
  mimeType : String
  description : String
  extra : ReqExtra
deriving DecidableEq

/-- A metadata value stored in a tool result's `_meta` map: either the
settlement confirmation the orchestrator writes, or an opaque
caller-provided value. -/
inductive MetaVal where
  | paymentResponse (settled : Bool) (txHash : Option String)
  | other (tag : String)
deriving DecidableEq

/-- One content block of a tool result. -/
structure ContentBlock where
  type : String
  text : Option String
  data : Option String
  mimeType : Option String
deriving DecidableEq

/-- A tool result (interface `ToolResult`): content blocks, an optional
error flag and an optional `_meta` map. -/
structure ToolResult where
  content : List ContentBlock
  isError : Option Bool
  meta : Option (List (String × MetaVal))
deriving DecidableEq

/-- A decoded payment proof: opaque to the core except for its `network`
field; the remaining JSON fields are carried as an opaque association
list. -/
structure DecodedPayment where
  network : Option String
  rest : List (String × String)
deriving DecidableEq

/-- The normalised facilitator result, typed exactly as the return type
of `callFacilitator`. -/
structure FacResult where
  isValid : Option Bool
  invalidReason : Option String
  success : Option Bool
  txHash : Option String
  errorReason : Option String
deriving DecidableEq

/-- A registered tool (interface `ToolDefinition`): a tool is paid when
`payments` is present. The parameter schema and the callback are
abstracted; their behaviour on the call under study enters through
`CallEnv`. -/
structure ToolDefinition where
  name : String
  description : String
  payments : Option (List PaymentConfig)
deriving DecidableEq

end X402

namespace X402

/-! ### Payment requirement builders (`src/server.ts`) -/

/-- One entry of the `accepts` array of the 402 challenge
(`createPaidMcpHandler`, no-payment branch). -/
def buildAcceptEntry (cfg : PaymentConfig) (recipient baseUrl toolName
    toolDescription : String) : PaymentRequirements :=
  { scheme := "exact"
    network := some cfg.network
    maxAmountRequired := priceInSmallestUnit cfg.price
    payTo := recipient
    asset := cfg.token
    maxTimeoutSeconds := 300
    resource := baseUrl ++ "/mcp/tools/" ++ toolName
    mimeType := "application/json"
    description := jsOr (cfg.config.bind PaymentConfigExtra.description) toolDescription
    extra := { name := cfg.usdcName, version := cfg.usdcVersion } }

/-- The payment requirements built before the facilitator calls
(`createPaidMcpHandler`, payment-provided branch); identical to an
`accepts` entry except that no `network` field is written. -/
def buildPaymentRequirements (cfg : PaymentConfig) (recipient baseUrl toolName
    toolDescription : String) : PaymentRequirements :=
  { scheme := "exact"
    network := none
    maxAmountRequired := priceInSmallestUnit cfg.price
    payTo := recipient
    asset := cfg.token
    maxTimeoutSeconds := 300
    resource := baseUrl ++ "/mcp/tools/" ++ toolName
    mimeType := "application/json"
    description := jsOr (cfg.config.bind PaymentConfigExtra.description) toolDescription
    extra := { name := cfg.usdcName, version := cfg.usdcVersion } }

/-- `JSON.stringify` of one `accepts` entry, keys in insertion order. -/
def acceptEntryText (r : PaymentRequirements) : String :=
  "\x7b\"scheme\":" ++ jsonStr r.scheme
    ++ (match r.network with
        | some n => ",\"network\":" ++ jsonStr n
        | none => "")
    ++ ",\"maxAmountRequired\":" ++ jsonStr r.maxAmountRequired
    ++ ",\"payTo\":" ++ jsonStr r.payTo
    ++ ",\"asset\":" ++ jsonStr r.asset
    ++ ",\"maxTimeoutSeconds\":" ++ toString r.maxTimeoutSeconds
    ++ ",\"resource\":" ++ jsonStr r.resource
    ++ ",\"mimeType\":" ++ jsonStr r.mimeType
    ++ ",\"description\":" ++ jsonStr r.description
    ++ ",\"extra\":\x7b\"name\":" ++ jsonStr r.extra.name
    ++ ",\"version\":" ++ jsonStr r.extra.version ++ "\x7d\x7d"

/-- Comma-joined renderings of the `accepts` entries. -/
def acceptListText : List PaymentRequirements → String
  | [] => ""
  | [r] => acceptEntryText r
  | r :: rest => acceptEntryText r ++ "," ++ acceptListText rest

/-- `JSON.stringify` of the 402 challenge payload
`{x402Version: 1, error: "_meta.x402.payment is required", accepts}`. -/
def paymentRequiredText (accepts : List PaymentRequirements) : String :=
  "\x7b\"x402Version\":1,\"error\":\"_meta.x402.payment is required\",\"accepts\":["
    ++ acceptListText accepts ++ "]\x7d"

/-- `JSON.stringify` of `{x402Version: 1, error, details}` (the
verification-failure payload). -/
def errV1Text (err details : String) : String :=
  "\x7b\"x402Version\":1,\"error\":" ++ jsonStr err ++ ",\"details\":"
    ++ jsonStr details ++ "\x7d"

/-- `JSON.stringify` of `{error, details}` (the settlement-failure and
processing-error payloads). -/
def errText (err details : String) : String :=
  "\x7b\"error\":" ++ jsonStr err ++ ",\"details\":" ++ jsonStr details ++ "\x7d"

/-- An error-flagged tool result with a single text content block, as
built by every error branch of the tool-call handler. -/
def errResult (text : String) : ToolResult :=
  { content := [{ type := "text", text := some text, data := none, mimeType := none }]
    isError := some true
    meta := none }

/-! ### Facilitator gateway (`src/utils/facilitator.ts`,
`src/utils/okx-signature.ts`)

`callFacilitator` is split into its pure parts: payload shaping, request
assembly and response normalisation. JSON serialisation of the payload
and the HMAC-SHA256/base64 primitive of the `crypto` library enter as
function parameters (`stringify`, `hmacSha256Base64`), as does the
ISO-8601 timestamp taken from the clock. -/

/-- The POST body object sent to a facilitator:
`{x402Version: 1, paymentPayload, paymentRequirements}`, plus the
`chainIndex` key added at the outer level on the OKX path. -/
structure FacPayload where
  x402Version : ℕ
  paymentPayload : DecodedPayment
  paymentRequirements : PaymentRequirements
  chainIndex : Option String
deriving DecidableEq

/-- Payload shaping in `callFacilitator`: for an `okx`-typed facilitator
the `network` field is deleted from the (copied) proof and requirements
and a `chainIndex` string is added at the outer level; otherwise the
requirement's `network` is set to the matched configuration's network. -/
def buildFacilitatorPayload (facilitator : FacilitatorConfig)
    (paymentConfig : PaymentConfig) (decodedPayment : DecodedPayment)
    (paymentRequirements : PaymentRequirements) : FacPayload :=
  if facilitator.type = some FacType.okx then
    { x402Version := 1
      paymentPayload := { decodedPayment with network := none }
      paymentRequirements := { paymentRequirements with network := none }
      chainIndex := some (toString paymentConfig.chainId) }
  else
    { x402Version := 1
      paymentPayload := decodedPayment
      paymentRequirements := { paymentRequirements with network := some paymentConfig.network }
      chainIndex := none }

/-- `generateOKXHeaders` (`src/utils/okx-signature.ts`): the pre-hash
string is `timestamp ‖ uppercased method ‖ requestPath ‖ body`; its
keyed hash (HMAC-SHA256 with the secret key, base64-encoded, supplied
here as `hmacSha256Base64`) is sent with the key id, passphrase and
timestamp. -/
def generateOKXHeaders (hmacSha256Base64 : String → String → String)
    (timestamp method requestPath body : String)
    (credentials : OKXCredentials) : List (String × String) :=
  [("Content-Type", "application/json"),
   ("OK-ACCESS-KEY", credentials.apiKey),
   ("OK-ACCESS-SIGN",
     hmacSha256Base64 credentials.secretKey
       (timestamp ++ jsToUpper method ++ requestPath ++ body)),
   ("OK-ACCESS-PASSPHRASE", credentials.passphrase),
   ("OK-ACCESS-TIMESTAMP", timestamp)]

/-- An outgoing HTTP request to a facilitator. -/
structure FacRequest where
  url : String
  method : String
  headers : List (String × String)
  body : String
deriving DecidableEq

/-- The request `callFacilitator` sends: an authenticated
`makeOKXRequest` to `/api/v6/x402/<action>` when the facilitator is
`okx`-typed and carries credentials, otherwise a plain `fetch` of
`<url>/<action>` with only a content-type header. -/
def callFacilitatorRequest (stringify : FacPayload → String)
    (hmacSha256Base64 : String → String → String) (timestamp : String)
    (action : String) (facilitator : FacilitatorConfig)
    (paymentConfig : PaymentConfig) (decodedPayment : DecodedPayment)
    (paymentRequirements : PaymentRequirements) : FacRequest :=
  let payload := buildFacilitatorPayload facilitator paymentConfig
    decodedPayment paymentRequirements
  let body := stringify payload
  match facilitator.type, facilitator.okxCredentials with
  | some FacType.okx, some credentials =>
    let requestPath := "/api/v6/x402/" ++ action
    { url := facilitator.url ++ requestPath
      method := "POST"
      headers := generateOKXHeaders hmacSha256Base64 timestamp "POST"
        requestPath body credentials
      body := body }
  | _, _ =>
    { url := facilitator.url ++ "/" ++ action
      method := "POST"
      headers := [("Content-Type", "application/json")]
      body := body }

end X402

namespace X402

/-- A computation that either returns or throws, with thrown errors
carried as their message string (the handler reads `error.message`). -/
inductive JsResult (α : Type) where
  | ok (getVal : α)
  | thrown (msg : String)
deriving DecidableEq

/-- The facilitator's HTTP response as `callFacilitator` inspects it:
the HTTP success flag, the body text (read on HTTP failure), and the
parsed JSON body viewed both as an OKX `{code, data, msg}` envelope and
as a flat result object. -/
structure FacHttpResponse where
  ok : Bool
  text : String
  okxCode : Option String
  okxData : Option (List FacResult)
  okxMsg : Option String
  flat : FacResult
deriving DecidableEq

/-- The OKX response unwrapping in `callFacilitator`: an envelope with
`code !== "0"`, a missing `data` or an empty `data` array throws
`msg || "OKX facilitator error"`; otherwise the single element of
`data` is the normalised result. -/
def parseOkxEnvelope (r : FacHttpResponse) : JsResult FacResult :=
  match r.okxData with
  | some (d :: _) =>
    if r.okxCode = some "0" then JsResult.ok d
    else JsResult.thrown (jsOr r.okxMsg "OKX facilitator error")
  | _ => JsResult.thrown (jsOr r.okxMsg "OKX facilitator error")

/-- Response normalisation in `callFacilitator`: a non-success HTTP
status throws with the body text; an `okx`-typed facilitator's body is
unwrapped from the OKX envelope; any other facilitator's body is
returned directly. -/
def callFacilitatorResponse (action : String) (facilitator : FacilitatorConfig)
    (r : FacHttpResponse) : JsResult FacResult :=
  if r.ok = false then
    JsResult.thrown ("Facilitator " ++ action ++ " failed: " ++ r.text)
  else if facilitator.type = some FacType.okx then
    parseOkxEnvelope r
  else
    JsResult.ok r.flat

/-! ### Payment lifecycle orchestrator (`src/server.ts`)

The `CallToolRequestSchema` handler is embedded as a pure function.
The call's interaction with its environment — the base64/JSON decoding
of the submitted proof, the two facilitator round trips, the zod
parameter validation and the tool callback — is supplied as a
`CallEnv` of outcomes; the function records which of the three
externally visible invocations (verify, handler, settle) actually
happen, in order, as a trace of `Event`s. -/

/-- The outcomes of the call's interactions with its environment. -/
structure CallEnv where
  decodePayment : JsResult DecodedPayment
  verifyOutcome : JsResult FacResult
  parseArgs : JsResult Unit
  handlerOutcome : JsResult ToolResult
  settleOutcome : JsResult FacResult
deriving DecidableEq

/-- An externally visible invocation made while serving one call. The
verify and settle events record the payment requirements passed to
`callFacilitator`. -/
inductive Event where
  | verifyCall (requirements : PaymentRequirements)
  | handlerCall
  | settleCall (requirements : PaymentRequirements)
deriving DecidableEq

/-- JavaScript property assignment on an object modelled as an
association list: overwrite the existing key in place, else append. -/
def metaSet (m : List (String × MetaVal)) (k : String) (v : MetaVal) :
    List (String × MetaVal) :=
  match m with
  | [] => [(k, v)]
  | (k1, v1) :: rest =>
    if k1 = k then (k, v) :: rest else (k1, v1) :: metaSet rest k v

/-- The body of the `try` block guarding the paid path: decode the
proof, match its network, resolve the facilitator, build the
requirements, verify, execute and settle, every failure being converted
into an error-flagged result. Returns the result and the invocation
trace. -/
def paidFlow (toolDef : ToolDefinition) (paymentConfigs : List PaymentConfig)
    (config : ServerConfig) (baseUrl toolName : String) (env : CallEnv) :
    ToolResult × List Event :=
  match env.decodePayment with
  | JsResult.thrown m => (errResult (errText "Payment processing error" m), [])
  | JsResult.ok decodedPayment =>
    match decodedPayment.network with
    | none =>
      (errResult (errText "Payment processing error"
        "Payment payload must include \x27network\x27 field"), [])
    | some selectedNetwork =>
      if selectedNetwork = "" then
        (errResult (errText "Payment processing error"
          "Payment payload must include \x27network\x27 field"), [])
      else
        match paymentConfigs.find? (fun cfg => cfg.network = selectedNetwork) with
        | none =>
          (errResult (errText "Payment processing error"
            ("Network \x27" ++ selectedNetwork ++ "\x27 is not an accepted payment option")), [])
        | some selectedConfig =>
          match config.facilitators.lookup selectedNetwork with
          | none =>
            (errResult (errText "Payment processing error"
              ("No facilitator configured for network " ++ selectedNetwork)), [])
          | some _facilitator =>
            let paymentRequirements := buildPaymentRequirements selectedConfig
              config.recipient baseUrl toolName toolDef.description
            match env.verifyOutcome with
            | JsResult.thrown m =>
              (errResult (errText "Payment processing error" m),
               [Event.verifyCall paymentRequirements])
            | JsResult.ok verifyResult =>
              if jsTruthy verifyResult.isValid = false then
                (errResult (errV1Text "Invalid payment"
                  (jsOr verifyResult.invalidReason "Payment verification failed")),
                 [Event.verifyCall paymentRequirements])
              else
                match env.parseArgs with
                | JsResult.thrown m =>
                  (errResult (errText "Payment processing error" m),
                   [Event.verifyCall paymentRequirements])
                | JsResult.ok _ =>
                  match env.handlerOutcome with
                  | JsResult.thrown m =>
                    (errResult (errText "Payment processing error" m),
                     [Event.verifyCall paymentRequirements, Event.handlerCall])
                  | JsResult.ok result =>
                    if jsTruthy result.isError then
                      (result, [Event.verifyCall paymentRequirements, Event.handlerCall])
                    else
                      match env.settleOutcome with
                      | JsResult.thrown m =>
                        (errResult (errText "Payment settlement error" m),
                         [Event.verifyCall paymentRequirements, Event.handlerCall,
                          Event.settleCall paymentRequirements])
                      | JsResult.ok settleResult =>
                        if jsTruthy settleResult.success = false then
                          (errResult (errText "Payment settlement failed"
                            (jsOr settleResult.errorReason "Settlement unsuccessful")),
                           [Event.verifyCall paymentRequirements, Event.handlerCall,
                            Event.settleCall paymentRequirements])
                        else
                          ({ result with
                              meta := some (metaSet (result.meta.getD [])
                                "x402.payment-response"
                                (MetaVal.paymentResponse true settleResult.txHash)) },
                           [Event.verifyCall paymentRequirements, Event.handlerCall,
                            Event.settleCall paymentRequirements])

/-- The `CallToolRequestSchema` handler of `createPaidMcpHandler`:
look the tool up (an unknown name throws), run free tools directly
(their validation or callback throws propagate), answer paid calls
without a proof with the 402 challenge, and otherwise run `paidFlow`.
`envUrl` is `process.env.URL`; `payment` is the `x402.payment` entry of
the request metadata. -/
def handleToolCall (tools : List ToolDefinition) (config : ServerConfig)
    (envUrl : Option String) (toolName : String) (payment : Option String)
    (env : CallEnv) : JsResult (ToolResult × List Event) :=
  match tools.find? (fun t => t.name = toolName) with
  | none => JsResult.thrown ("Tool not found: " ++ toolName)
  | some toolDef =>
    match toolDef.payments with
    | none =>
      match env.parseArgs with
      | JsResult.thrown m => JsResult.thrown m
      | JsResult.ok _ =>
        match env.handlerOutcome with
        | JsResult.thrown m => JsResult.thrown m
        | JsResult.ok result => JsResult.ok (result, [Event.handlerCall])
    | some paymentConfigs =>
      if jsStrTruthy payment = false then
        let accepts := paymentConfigs.map (fun cfg =>
          buildAcceptEntry cfg config.recipient (jsOr envUrl "http://localhost:3000")
            toolName toolDef.description)
        JsResult.ok (errResult (paymentRequiredText accepts), [])
      else
        JsResult.ok (paidFlow toolDef paymentConfigs config
          (jsOr envUrl "http://localhost:3000") toolName env)

end X402

namespace X402

/-- Whether an event is a settlement invocation. -/
def Event.isSettle : Event → Bool
  | Event.settleCall _ => true
  | _ => false

/-! ### Concrete fixtures

Closed sample values used by the witness theorems; the networks, token
address and prices follow the repository's own examples. -/

def wStringify : FacPayload → String := fun _ => "BODY"

def wHmac : String → String → String := fun key msg => "SIG:" ++ key ++ ":" ++ msg

def wTs : String := "2024-01-01T00:00:00.000Z"

def wCreds : OKXCredentials := { apiKey := "ak", secretKey := "sk", passphrase := "pp" }

def wFacOkx : FacilitatorConfig :=
  { url := "https://www.okx.com", type := some FacType.okx, okxCredentials := some wCreds }

def wFacOkxNoCreds : FacilitatorConfig :=
  { url := "https://www.okx.com", type := some FacType.okx, okxCredentials := none }

def wFacStd : FacilitatorConfig :=
  { url := "https://x402.org/facilitator", type := some FacType.standard,
    okxCredentials := none }

def wCfg : PaymentConfig :=
  { price := "0.01", chainId := 196, token := "0xtok", usdcName := "USD Coin",
    usdcVersion := "2", network := "xlayer", config := none }

def wPay : DecodedPayment := { network := some "xlayer", rest := [("signature", "0xsig")] }

def wReqs : PaymentRequirements :=
  { scheme := "exact", network := none, maxAmountRequired := "10000", payTo := "0xrec",
    asset := "0xtok", maxTimeoutSeconds := 300,
    resource := "http://localhost:3000/mcp/tools/t", mimeType := "application/json",
    description := "d", extra := { name := "USD Coin", version := "2" } }

def wToolDef : ToolDefinition := { name := "t", description := "d", payments := some [wCfg] }

def wTools : List ToolDefinition := [wToolDef]

def wServerCfg : ServerConfig := { recipient := "0xrec", facilitators := [("xlayer", wFacOkx)] }

def wVerifyOk : FacResult :=
  { isValid := some true, invalidReason := none, success := none, txHash := none,
    errorReason := none }

def wSettleOk : FacResult :=
  { isValid := none, invalidReason := none, success := some true, txHash := some "0xhash",
    errorReason := none }

def wSettleFail : FacResult :=
  { isValid := none, invalidReason := none, success := some false, txHash := none,
    errorReason := some "insufficient funds" }

def wHandlerRes : ToolResult :=
  { content := [{ type := "text", text := some "ok", data := none, mimeType := none }],
    isError := none, meta := none }

def wEnvSettled : CallEnv :=
  { decodePayment := JsResult.ok wPay, verifyOutcome := JsResult.ok wVerifyOk,
    parseArgs := JsResult.ok (), handlerOutcome := JsResult.ok wHandlerRes,
    settleOutcome := JsResult.ok wSettleOk }

def wEnvSettleFail : CallEnv :=
  { wEnvSettled with settleOutcome := JsResult.ok wSettleFail }

def wEnvDecodeFail : CallEnv :=
  { wEnvSettled with decodePayment := JsResult.thrown "Unexpected token" }

/-- The payment requirements the orchestrator builds for the fixture
call (tool `"t"`, default base URL, recipient `"0xrec"`). -/
def wReqsB : PaymentRequirements :=
  buildPaymentRequirements wCfg "0xrec" "http://localhost:3000" "t" "d"

def wTraceFull : List Event :=
  [Event.verifyCall wReqsB, Event.handlerCall, Event.settleCall wReqsB]

def wResSettled : ToolResult :=
  { wHandlerRes with
      meta := some [("x402.payment-response", MetaVal.paymentResponse true (some "0xhash"))] }

/-! ### Helper lemmas -/

@[simp] lemma jsTruthy_true_iff (o : Option Bool) : jsTruthy o = true ↔ o = some true := by
  cases o with
  | none => simp [jsTruthy]
  | some b => cases b <;> simp [jsTruthy]

@[simp] lemma jsTruthy_false_iff (o : Option Bool) : jsTruthy o = false ↔ o ≠ some true := by
  cases o with
  | none => simp [jsTruthy]
  | some b => cases b <;> simp [jsTruthy]

lemma errResult_isError (t : String) : (errResult t).isError = some true := rfl

lemma errResult_meta (t : String) : (errResult t).meta = none := rfl

/-- An error result built by the handler is never the handler's own
non-error-flagged result: the error flags differ. -/
lemma errResult_ne (t : String) (r : ToolResult) (h : jsTruthy r.isError = false) :
    errResult t ≠ r := by
  intro he
  rw [← he] at h
  simp [errResult] at h

lemma metaSet_lookup_self (m : List (String × MetaVal)) (k : String) (v : MetaVal) :
    (metaSet m k v).lookup k = some v := by
  induction m with
  | nil => simp [metaSet, List.lookup]
  | cons hd tl ih =>
    obtain ⟨k1, v1⟩ := hd
    by_cases h : k1 = k
    · subst h
      simp [metaSet, List.lookup]
    · have hk : (k == k1) = false := by
        cases hbeq : k == k1 with
        | false => rfl
        | true => exact absurd (eq_of_beq hbeq).symm h
      simp [metaSet, h, List.lookup, hk, ih]

lemma metaSet_lookup_ne (m : List (String × MetaVal)) (k : String) (v : MetaVal)
    (k1 : String) (h : k1 ≠ k) : (metaSet m k v).lookup k1 = m.lookup k1 := by
  have hk : (k1 == k) = false := by
    cases hbeq : k1 == k with
    | false => rfl
    | true => exact absurd (eq_of_beq hbeq) h
  induction m with
  | nil => simp [metaSet, List.lookup, hk]
  | cons hd tl ih =>
    obtain ⟨k2, v2⟩ := hd
    by_cases h2 : k2 = k
    · subst h2
      simp [metaSet, List.lookup, hk]
    · cases hbeq : k1 == k2 <;> simp [metaSet, h2, List.lookup, hbeq, ih]

/-! ### Claim C3 (numerical) -/

/-- Claim C3 counterexample: the claim says `maxAmountRequired` equals
`floor(price × 10^6)` with the price read as a decimal number, for every
configuration. For price `"2.01"` the exact decimal product is the
integer `2010000`, but the code computes `Math.floor` of the binary64
product `parseFloat("2.01") * 1e6 = 2009999.9999999998`, producing
`"2009999"`. -/
theorem C3_counterexample :
    priceInSmallestUnit "2.01" = "2009999" ∧
    (201 : ℚ) / 100 * 1000000 = 2010000 ∧
    priceInSmallestUnit "2.01" ≠ "2010000" :=
  ⟨by decide, by norm_num, by decide⟩

/-- Claim C3, amended: `maxAmountRequired` is `Math.floor` of the
binary64 product of `parseFloat(price)` and `10^6`, rendered as a
decimal integer string; the floor itself never rounds up, and the
claim's scenarios hold exactly: `"0.01" → "10000"`, `"0.1" → "100000"`,
`"1" → "1000000"`; but binary64 rounding can make the result differ
from the exact decimal floor, e.g. `"2.01" → "2009999"`. -/
theorem C3_amount_conversion :
    priceInSmallestUnit "0.01" = "10000" ∧
    priceInSmallestUnit "0.1" = "100000" ∧
    priceInSmallestUnit "1" = "1000000" ∧
    priceInSmallestUnit "2.01" = "2009999" ∧
    ∀ q : Q2, 0 < q.d → Q2.floor q * q.d ≤ q.n := by
  refine ⟨by decide, by decide, by decide, by decide, ?_⟩
  intro q hd
  rw [Q2.floor, Int.fdiv_eq_ediv _ hd.le, mul_comm]
  have h1 := Int.emod_nonneg q.n hd.ne'
  have h2 := Int.ediv_add_emod q.n q.d
  linarith

/-- Witness for `C3_amount_conversion`: the floor bound at the concrete
fraction `5 / 2`. -/
theorem C3_amount_conversion_witness :
    0 < (Q2.mk 5 2).d ∧ Q2.floor (Q2.mk 5 2) * (Q2.mk 5 2).d ≤ (Q2.mk 5 2).n :=
  ⟨by decide, C3_amount_conversion.2.2.2.2 (Q2.mk 5 2) (by decide)⟩

/-! ### Claim C4 (error handling) -/

/-- Claim C4 says a malformed price makes requirement building fail with
a validation error. The code contradicts this: `parseFloat` yields NaN,
`Math.floor(NaN * 1e6)` is NaN, and the requirement is silently built
with `maxAmountRequired = "NaN"` — no error is raised on this path
(though the price is indeed not coerced to zero). -/
theorem C4_malformed_price_nan (cfg : PaymentConfig)
    (recipient baseUrl toolName toolDescription : String)
    (h : cfg.price = "abc") :
    (buildPaymentRequirements cfg recipient baseUrl toolName
        toolDescription).maxAmountRequired = "NaN" ∧
    (buildAcceptEntry cfg recipient baseUrl toolName
        toolDescription).maxAmountRequired = "NaN" ∧
    jsParseFloat cfg.price = F64.nan := by
  refine ⟨?_, ?_, ?_⟩ <;> simp only [buildPaymentRequirements, buildAcceptEntry, h] <;> decide

/-- Witness for `C4_malformed_price_nan` at a concrete configuration. -/
theorem C4_malformed_price_nan_witness :
    (PaymentConfig.mk "abc" 196 "0xtok" "USD Coin" "2" "xlayer" none).price = "abc" ∧
    ((buildPaymentRequirements
        (PaymentConfig.mk "abc" 196 "0xtok" "USD Coin" "2" "xlayer" none)
        "0xrec" "http://localhost:3000" "t" "d").maxAmountRequired = "NaN" ∧
      (buildAcceptEntry
        (PaymentConfig.mk "abc" 196 "0xtok" "USD Coin" "2" "xlayer" none)
        "0xrec" "http://localhost:3000" "t" "d").maxAmountRequired = "NaN" ∧
      jsParseFloat (PaymentConfig.mk "abc" 196 "0xtok" "USD Coin" "2" "xlayer" none).price
        = F64.nan) :=
  ⟨by decide,
   C4_malformed_price_nan (PaymentConfig.mk "abc" 196 "0xtok" "USD Coin" "2" "xlayer" none)
     "0xrec" "http://localhost:3000" "t" "d" (by decide)⟩

end X402

namespace X402

/-! ### Claim C5 (signed facilitator path) -/

/-- Claim C5: a verify or settle call routed to an `okx`-typed
facilitator with credentials strips `network` from the outgoing proof
and requirements, adds an outer `chainIndex` equal to the configured
chain id as a string, POSTs to `/api/v6/x402/verify` or
`/api/v6/x402/settle`, and carries exactly the five headers
Content-Type, OK-ACCESS-KEY, OK-ACCESS-SIGN, OK-ACCESS-PASSPHRASE and
OK-ACCESS-TIMESTAMP, where the signature is the keyed hash
(HMAC-SHA256, base64, modelled by the `hmac` parameter) of
timestamp ‖ uppercased method ‖ path ‖ JSON body. -/
theorem C5_okx_signed_request
    (stringify : FacPayload → String) (hmac : String → String → String)
    (ts action : String) (fac : FacilitatorConfig) (cfg : PaymentConfig)
    (pay : DecodedPayment) (reqs : PaymentRequirements) (creds : OKXCredentials)
    (htype : fac.type = some FacType.okx) (hcreds : fac.okxCredentials = some creds)
    (haction : action = "verify" ∨ action = "settle") :
    (buildFacilitatorPayload fac cfg pay reqs).paymentPayload.network = none ∧
    (buildFacilitatorPayload fac cfg pay reqs).paymentRequirements.network = none ∧
    (buildFacilitatorPayload fac cfg pay reqs).chainIndex = some (toString cfg.chainId) ∧
    callFacilitatorRequest stringify hmac ts action fac cfg pay reqs =
      { url := fac.url ++ ("/api/v6/x402/" ++ action)
        method := "POST"
        headers := [("Content-Type", "application/json"),
          ("OK-ACCESS-KEY", creds.apiKey),
          ("OK-ACCESS-SIGN", hmac creds.secretKey
            (ts ++ "POST" ++ ("/api/v6/x402/" ++ action)
              ++ stringify (buildFacilitatorPayload fac cfg pay reqs))),
          ("OK-ACCESS-PASSPHRASE", creds.passphrase),
          ("OK-ACCESS-TIMESTAMP", ts)]
        body := stringify (buildFacilitatorPayload fac cfg pay reqs) } ∧
    ("/api/v6/x402/" ++ action = "/api/v6/x402/verify" ∨
      "/api/v6/x402/" ++ action = "/api/v6/x402/settle") := by
  have hup : jsToUpper "POST" = "POST" := by decide
  refine ⟨by simp [buildFacilitatorPayload, htype], by simp [buildFacilitatorPayload, htype],
    by simp [buildFacilitatorPayload, htype], ?_, ?_⟩
  · simp only [callFacilitatorRequest, htype, hcreds, generateOKXHeaders, hup]
  · rcases haction with h | h
    · exact Or.inl (by rw [h]; decide)
    · exact Or.inr (by rw [h]; decide)

/-- Witness for `C5_okx_signed_request` at the fixture facilitator,
configuration, proof and requirements, with `action = "verify"`. -/
theorem C5_okx_signed_request_witness :
    wFacOkx.type = some FacType.okx ∧ wFacOkx.okxCredentials = some wCreds ∧
    ((buildFacilitatorPayload wFacOkx wCfg wPay wReqs).paymentPayload.network = none ∧
      (buildFacilitatorPayload wFacOkx wCfg wPay wReqs).paymentRequirements.network = none ∧
      (buildFacilitatorPayload wFacOkx wCfg wPay wReqs).chainIndex
        = some (toString wCfg.chainId) ∧
      callFacilitatorRequest wStringify wHmac wTs "verify" wFacOkx wCfg wPay wReqs =
        { url := wFacOkx.url ++ ("/api/v6/x402/" ++ "verify")
          method := "POST"
          headers := [("Content-Type", "application/json"),
            ("OK-ACCESS-KEY", wCreds.apiKey),
            ("OK-ACCESS-SIGN", wHmac wCreds.secretKey
              (wTs ++ "POST" ++ ("/api/v6/x402/" ++ "verify")
                ++ wStringify (buildFacilitatorPayload wFacOkx wCfg wPay wReqs))),
            ("OK-ACCESS-PASSPHRASE", wCreds.passphrase),
            ("OK-ACCESS-TIMESTAMP", wTs)]
          body := wStringify (buildFacilitatorPayload wFacOkx wCfg wPay wReqs) } ∧
      ("/api/v6/x402/" ++ "verify" = "/api/v6/x402/verify" ∨
        "/api/v6/x402/" ++ "verify" = "/api/v6/x402/settle")) :=
  ⟨rfl, rfl,
   C5_okx_signed_request wStringify wHmac wTs "verify" wFacOkx wCfg wPay wReqs wCreds
     rfl rfl (Or.inl rfl)⟩

/-! ### Claim C6 (plain facilitator path) -/

/-- Claim C6: a verify or settle call routed to a plain (standard)
facilitator POSTs to `/<action>` relative to the backend base URL with
Content-Type as the only header, keeps `network` in the requirements
(set to the matched configuration's network), forwards the decoded
proof unmodified, and returns the parsed response body directly as the
normalised result, with no envelope unwrapping. -/
theorem C6_plain_request
    (stringify : FacPayload → String) (hmac : String → String → String)
    (ts action : String) (fac : FacilitatorConfig) (cfg : PaymentConfig)
    (pay : DecodedPayment) (reqs : PaymentRequirements)
    (htype : fac.type ≠ some FacType.okx) :
    (buildFacilitatorPayload fac cfg pay reqs).paymentPayload = pay ∧
    (buildFacilitatorPayload fac cfg pay reqs).paymentRequirements =
      { reqs with network := some cfg.network } ∧
    callFacilitatorRequest stringify hmac ts action fac cfg pay reqs =
      { url := fac.url ++ "/" ++ action
        method := "POST"
        headers := [("Content-Type", "application/json")]
        body := stringify (buildFacilitatorPayload fac cfg pay reqs) } ∧
    (∀ r : FacHttpResponse, r.ok = true →
      callFacilitatorResponse action fac r = JsResult.ok r.flat) := by
  refine ⟨by simp [buildFacilitatorPayload, htype], by simp [buildFacilitatorPayload, htype],
    ?_, ?_⟩
  · rcases hft : fac.type with _ | ft
    · simp [callFacilitatorRequest, hft]
    · cases ft
      · exact absurd hft htype
      · simp [callFacilitatorRequest, hft]
  · intro r hr
    simp [callFacilitatorResponse, hr, htype]

/-- Witness for `C6_plain_request` at the fixture standard facilitator,
with `action = "settle"`. -/
theorem C6_plain_request_witness :
    wFacStd.type ≠ some FacType.okx ∧
    ((buildFacilitatorPayload wFacStd wCfg wPay wReqs).paymentPayload = wPay ∧
      (buildFacilitatorPayload wFacStd wCfg wPay wReqs).paymentRequirements =
        { wReqs with network := some wCfg.network } ∧
      callFacilitatorRequest wStringify wHmac wTs "settle" wFacStd wCfg wPay wReqs =
        { url := wFacStd.url ++ "/" ++ "settle"
          method := "POST"
          headers := [("Content-Type", "application/json")]
          body := wStringify (buildFacilitatorPayload wFacStd wCfg wPay wReqs) } ∧
      (∀ r : FacHttpResponse, r.ok = true →
        callFacilitatorResponse "settle" wFacStd r = JsResult.ok r.flat)) :=
  ⟨by decide,
   C6_plain_request wStringify wHmac wTs "settle" wFacStd wCfg wPay wReqs (by decide)⟩

/-! ### Claim C10 (okx-typed facilitator without credentials) -/

/-- Claim C10: an `okx`-typed facilitator binding with no credential
bundle still gets the signed-format payload (`network` stripped from
proof and requirements, outer `chainIndex` added) and its response is
still unwrapped as the OKX `{code, data[]}` envelope, but the request
is sent to `<base URL>/<action>` — the plain path — with Content-Type
as the only header and no authentication headers. -/
theorem C10_okx_without_credentials
    (stringify : FacPayload → String) (hmac : String → String → String)
    (ts action : String) (fac : FacilitatorConfig) (cfg : PaymentConfig)
    (pay : DecodedPayment) (reqs : PaymentRequirements)
    (htype : fac.type = some FacType.okx) (hcreds : fac.okxCredentials = none) :
    (buildFacilitatorPayload fac cfg pay reqs).paymentPayload.network = none ∧
    (buildFacilitatorPayload fac cfg pay reqs).paymentRequirements.network = none ∧
    (buildFacilitatorPayload fac cfg pay reqs).chainIndex = some (toString cfg.chainId) ∧
    callFacilitatorRequest stringify hmac ts action fac cfg pay reqs =
      { url := fac.url ++ "/" ++ action
        method := "POST"
        headers := [("Content-Type", "application/json")]
        body := stringify (buildFacilitatorPayload fac cfg pay reqs) } ∧
    (∀ r : FacHttpResponse, r.ok = true →
      callFacilitatorResponse action fac r = parseOkxEnvelope r) := by
  refine ⟨by simp [buildFacilitatorPayload, htype], by simp [buildFacilitatorPayload, htype],
    by simp [buildFacilitatorPayload, htype], ?_, ?_⟩
  · simp only [callFacilitatorRequest, htype, hcreds]
  · intro r hr
    simp [callFacilitatorResponse, hr, htype]

/-- Witness for `C10_okx_without_credentials` at the fixture
credential-less OKX facilitator, with `action = "verify"`. -/
theorem C10_okx_without_credentials_witness :
    wFacOkxNoCreds.type = some FacType.okx ∧ wFacOkxNoCreds.okxCredentials = none ∧
    ((buildFacilitatorPayload wFacOkxNoCreds wCfg wPay wReqs).paymentPayload.network = none ∧
      (buildFacilitatorPayload wFacOkxNoCreds wCfg wPay wReqs).paymentRequirements.network
        = none ∧
      (buildFacilitatorPayload wFacOkxNoCreds wCfg wPay wReqs).chainIndex
        = some (toString wCfg.chainId) ∧
      callFacilitatorRequest wStringify wHmac wTs "verify" wFacOkxNoCreds wCfg wPay wReqs =
        { url := wFacOkxNoCreds.url ++ "/" ++ "verify"
          method := "POST"
          headers := [("Content-Type", "application/json")]
          body := wStringify (buildFacilitatorPayload wFacOkxNoCreds wCfg wPay wReqs) } ∧
      (∀ r : FacHttpResponse, r.ok = true →
        callFacilitatorResponse "verify" wFacOkxNoCreds r = parseOkxEnvelope r)) :=
  ⟨rfl, rfl,
   C10_okx_without_credentials wStringify wHmac wTs "verify" wFacOkxNoCreds wCfg wPay wReqs
     rfl rfl⟩

end X402

namespace X402

/-! ### Claim C2 (missing payment challenge) -/

/-- Claim C2: a call to a paid operation whose request metadata has no
`x402.payment` entry returns an error-flagged result whose text payload
is the stringified challenge `{x402Version: 1, error:
"_meta.x402.payment is required", accepts}`, where `accepts` has
exactly one entry per configured network in configuration order, each
with scheme `"exact"`, that network's name, the configured recipient,
token, timeout 300, mime type `"application/json"` and resource
`<base URL>/mcp/tools/<operationName>`; the handler is never invoked
and no facilitator call is made (the invocation trace is empty). -/
theorem C2_payment_missing_challenge
    (tools : List ToolDefinition) (config : ServerConfig) (envUrl : Option String)
    (toolName : String) (env : CallEnv) (toolDef : ToolDefinition)
    (paymentConfigs : List PaymentConfig)
    (hfind : tools.find? (fun t => t.name = toolName) = some toolDef)
    (hpaid : toolDef.payments = some paymentConfigs)
    (_hne : paymentConfigs ≠ []) :
    handleToolCall tools config envUrl toolName none env =
      JsResult.ok (errResult (paymentRequiredText (paymentConfigs.map (fun cfg =>
        buildAcceptEntry cfg config.recipient (jsOr envUrl "http://localhost:3000")
          toolName toolDef.description))), []) ∧
    (errResult (paymentRequiredText (paymentConfigs.map (fun cfg =>
        buildAcceptEntry cfg config.recipient (jsOr envUrl "http://localhost:3000")
          toolName toolDef.description)))).isError = some true ∧
    ∀ cfg ∈ paymentConfigs,
      (buildAcceptEntry cfg config.recipient (jsOr envUrl "http://localhost:3000")
          toolName toolDef.description).scheme = "exact" ∧
      (buildAcceptEntry cfg config.recipient (jsOr envUrl "http://localhost:3000")
          toolName toolDef.description).network = some cfg.network ∧
      (buildAcceptEntry cfg config.recipient (jsOr envUrl "http://localhost:3000")
          toolName toolDef.description).maxAmountRequired = priceInSmallestUnit cfg.price ∧
      (buildAcceptEntry cfg config.recipient (jsOr envUrl "http://localhost:3000")
          toolName toolDef.description).payTo = config.recipient ∧
      (buildAcceptEntry cfg config.recipient (jsOr envUrl "http://localhost:3000")
          toolName toolDef.description).asset = cfg.token ∧
      (buildAcceptEntry cfg config.recipient (jsOr envUrl "http://localhost:3000")
          toolName toolDef.description).maxTimeoutSeconds = 300 ∧
      (buildAcceptEntry cfg config.recipient (jsOr envUrl "http://localhost:3000")
          toolName toolDef.description).mimeType = "application/json" ∧
      (buildAcceptEntry cfg config.recipient (jsOr envUrl "http://localhost:3000")
          toolName toolDef.description).resource =
        jsOr envUrl "http://localhost:3000" ++ "/mcp/tools/" ++ toolName := by
  refine ⟨?_, rfl, ?_⟩
  · simp [handleToolCall, hfind, hpaid, jsStrTruthy]
  · intro cfg _
    exact ⟨rfl, rfl, rfl, rfl, rfl, rfl, rfl, rfl⟩

/-- Witness for `C2_payment_missing_challenge` at the fixture server. -/
theorem C2_payment_missing_challenge_witness :
    wTools.find? (fun t => t.name = "t") = some wToolDef ∧
    wToolDef.payments = some [wCfg] ∧
    (handleToolCall wTools wServerCfg none "t" none wEnvSettled =
      JsResult.ok (errResult (paymentRequiredText ([wCfg].map (fun cfg =>
        buildAcceptEntry cfg wServerCfg.recipient (jsOr none "http://localhost:3000")
          "t" wToolDef.description))), []) ∧
    (errResult (paymentRequiredText ([wCfg].map (fun cfg =>
        buildAcceptEntry cfg wServerCfg.recipient (jsOr none "http://localhost:3000")
          "t" wToolDef.description)))).isError = some true ∧
    ∀ cfg ∈ [wCfg],
      (buildAcceptEntry cfg wServerCfg.recipient (jsOr none "http://localhost:3000")
          "t" wToolDef.description).scheme = "exact" ∧
      (buildAcceptEntry cfg wServerCfg.recipient (jsOr none "http://localhost:3000")
          "t" wToolDef.description).network = some cfg.network ∧
      (buildAcceptEntry cfg wServerCfg.recipient (jsOr none "http://localhost:3000")
          "t" wToolDef.description).maxAmountRequired = priceInSmallestUnit cfg.price ∧
      (buildAcceptEntry cfg wServerCfg.recipient (jsOr none "http://localhost:3000")
          "t" wToolDef.description).payTo = wServerCfg.recipient ∧
      (buildAcceptEntry cfg wServerCfg.recipient (jsOr none "http://localhost:3000")
          "t" wToolDef.description).asset = cfg.token ∧
      (buildAcceptEntry cfg wServerCfg.recipient (jsOr none "http://localhost:3000")
          "t" wToolDef.description).maxTimeoutSeconds = 300 ∧
      (buildAcceptEntry cfg wServerCfg.recipient (jsOr none "http://localhost:3000")
          "t" wToolDef.description).mimeType = "application/json" ∧
      (buildAcceptEntry cfg wServerCfg.recipient (jsOr none "http://localhost:3000")
          "t" wToolDef.description).resource =
        jsOr none "http://localhost:3000" ++ "/mcp/tools/" ++ "t") :=
  ⟨by decide, by decide,
   C2_payment_missing_challenge wTools wServerCfg none "t" wEnvSettled wToolDef [wCfg]
     (by decide) (by decide) (by decide)⟩

/-! ### Claim C7 (invalid proof) -/

/-- Claim C7: when the submitted `x402.payment` value fails base64/JSON
decoding, or decodes to an object with no (or an empty) `network`
field, the call returns an error-flagged result carrying the failure
reason and the operation handler is never invoked (the invocation trace
is empty). -/
theorem C7_invalid_proof_rejected
    (tools : List ToolDefinition) (config : ServerConfig) (envUrl : Option String)
    (toolName : String) (payment : Option String) (env : CallEnv)
    (toolDef : ToolDefinition) (paymentConfigs : List PaymentConfig) (p : String)
    (hfind : tools.find? (fun t => t.name = toolName) = some toolDef)
    (hpaid : toolDef.payments = some paymentConfigs)
    (hpay : payment = some p) (hp : p ≠ "") :
    (∀ m, env.decodePayment = JsResult.thrown m →
      handleToolCall tools config envUrl toolName payment env =
        JsResult.ok (errResult (errText "Payment processing error" m), [])) ∧
    (∀ d, env.decodePayment = JsResult.ok d → jsStrTruthy d.network = false →
      handleToolCall tools config envUrl toolName payment env =
        JsResult.ok (errResult (errText "Payment processing error"
          "Payment payload must include \x27network\x27 field"), [])) ∧
    (∀ m, (errResult (errText "Payment processing error" m)).isError = some true) := by
  refine ⟨?_, ?_, fun m => rfl⟩
  · intro m hm
    simp [handleToolCall, hfind, hpaid, hpay, jsStrTruthy, hp, paidFlow, hm]
  · intro d hd hn
    rcases hdn : d.network with _ | net
    · simp [handleToolCall, hfind, hpaid, hpay, jsStrTruthy, hp, paidFlow, hd, hdn]
    · rw [hdn] at hn
      have hnet : net = "" := by
        by_cases h : net = ""
        · exact h
        · simp [jsStrTruthy, h] at hn
      subst hnet
      simp [handleToolCall, hfind, hpaid, hpay, jsStrTruthy, hp, paidFlow, hd, hdn]

/-- Witness for `C7_invalid_proof_rejected`: decoding throws at the
fixture call. -/
theorem C7_invalid_proof_rejected_witness :
    wEnvDecodeFail.decodePayment = JsResult.thrown "Unexpected token" ∧
    handleToolCall wTools wServerCfg none "t" (some "proof") wEnvDecodeFail =
      JsResult.ok (errResult (errText "Payment processing error" "Unexpected token"), []) :=
  ⟨by decide,
   (C7_invalid_proof_rejected wTools wServerCfg none "t" (some "proof") wEnvDecodeFail
      wToolDef [wCfg] "proof" (by decide) (by decide) rfl (by decide)).1
     "Unexpected token" (by decide)⟩

end X402

namespace X402

/-! ### Claim C8 (settlement failure containment) -/

/-- Claim C8: when verification succeeded and the handler's result was
not error-flagged, but settle returns `success` falsy or throws, the
call returns an error-flagged result distinct from the handler's own
result, carrying the settle `errorReason` (with the default
`"Settlement unsuccessful"`) or the thrown error's message as its
details. -/
theorem C8_settlement_failure_distinct
    (tools : List ToolDefinition) (config : ServerConfig) (envUrl : Option String)
    (toolName : String) (payment : Option String) (env : CallEnv)
    (toolDef : ToolDefinition) (paymentConfigs : List PaymentConfig) (p : String)
    (d : DecodedPayment) (net : String) (selectedConfig : PaymentConfig)
    (fac : FacilitatorConfig) (v : FacResult) (hr : ToolResult)
    (hfind : tools.find? (fun t => t.name = toolName) = some toolDef)
    (hpaid : toolDef.payments = some paymentConfigs)
    (hpay : payment = some p) (hp : p ≠ "")
    (hdec : env.decodePayment = JsResult.ok d)
    (hnet : d.network = some net) (hne : net ≠ "")
    (hcfg : paymentConfigs.find? (fun cfg => cfg.network = net) = some selectedConfig)
    (hfac : config.facilitators.lookup net = some fac)
    (hver : env.verifyOutcome = JsResult.ok v) (hval : v.isValid = some true)
    (hargs : env.parseArgs = JsResult.ok ())
    (hh : env.handlerOutcome = JsResult.ok hr) (hhe : jsTruthy hr.isError = false) :
    (∀ m, env.settleOutcome = JsResult.thrown m →
      handleToolCall tools config envUrl toolName payment env =
        JsResult.ok (errResult (errText "Payment settlement error" m),
          [Event.verifyCall (buildPaymentRequirements selectedConfig config.recipient
              (jsOr envUrl "http://localhost:3000") toolName toolDef.description),
            Event.handlerCall,
            Event.settleCall (buildPaymentRequirements selectedConfig config.recipient
              (jsOr envUrl "http://localhost:3000") toolName toolDef.description)]) ∧
      errResult (errText "Payment settlement error" m) ≠ hr) ∧
    (∀ s, env.settleOutcome = JsResult.ok s → jsTruthy s.success = false →
      handleToolCall tools config envUrl toolName payment env =
        JsResult.ok (errResult (errText "Payment settlement failed"
            (jsOr s.errorReason "Settlement unsuccessful")),
          [Event.verifyCall (buildPaymentRequirements selectedConfig config.recipient
              (jsOr envUrl "http://localhost:3000") toolName toolDef.description),
            Event.handlerCall,
            Event.settleCall (buildPaymentRequirements selectedConfig config.recipient
              (jsOr envUrl "http://localhost:3000") toolName toolDef.description)]) ∧
      errResult (errText "Payment settlement failed"
        (jsOr s.errorReason "Settlement unsuccessful")) ≠ hr) := by
  have hie := (jsTruthy_false_iff hr.isError).mp hhe
  constructor
  · intro m hm
    refine ⟨?_, errResult_ne _ hr hhe⟩
    simp [handleToolCall, hfind, hpaid, hpay, jsStrTruthy, hp, paidFlow, hdec, hnet, hne,
      hcfg, hfac, hver, hval, hargs, hh, hie, hm]
  · intro s hs hsf
    have hsf2 := (jsTruthy_false_iff s.success).mp hsf
    refine ⟨?_, errResult_ne _ hr hhe⟩
    simp [handleToolCall, hfind, hpaid, hpay, jsStrTruthy, hp, paidFlow, hdec, hnet, hne,
      hcfg, hfac, hver, hval, hargs, hh, hie, hs, hsf2]

/-- Witness for `C8_settlement_failure_distinct`: the fixture call whose
settle responds `{success: false, errorReason: "insufficient funds"}`. -/
theorem C8_settlement_failure_distinct_witness :
    wEnvSettleFail.settleOutcome = JsResult.ok wSettleFail ∧
    jsTruthy wSettleFail.success = false ∧
    (handleToolCall wTools wServerCfg none "t" (some "proof") wEnvSettleFail =
      JsResult.ok (errResult (errText "Payment settlement failed"
          (jsOr wSettleFail.errorReason "Settlement unsuccessful")),
        [Event.verifyCall (buildPaymentRequirements wCfg wServerCfg.recipient
            (jsOr none "http://localhost:3000") "t" wToolDef.description),
          Event.handlerCall,
          Event.settleCall (buildPaymentRequirements wCfg wServerCfg.recipient
            (jsOr none "http://localhost:3000") "t" wToolDef.description)]) ∧
      errResult (errText "Payment settlement failed"
        (jsOr wSettleFail.errorReason "Settlement unsuccessful")) ≠ wHandlerRes) :=
  ⟨by decide, by decide,
   (C8_settlement_failure_distinct wTools wServerCfg none "t" (some "proof") wEnvSettleFail
      wToolDef [wCfg] "proof" wPay "xlayer" wCfg wFacOkx wVerifyOk wHandlerRes
      (by decide) (by decide) rfl (by decide) (by decide) (by decide) (by decide)
      (by decide) (by decide) (by decide) (by decide) (by decide) (by decide)
      (by decide)).2 wSettleFail (by decide) (by decide)⟩

end X402

namespace X402

/-! ### Claim C9 (settlement confirmation merge and frame) -/

/-- Claim C9: a paid call that reaches successful settlement returns the
handler's result with the single metadata entry
`"x402.payment-response" = {settled: true, txHash}` written into its
metadata map — content blocks, error flag and all other metadata
entries unchanged. On the execution-failure path the handler's result
is returned verbatim (no metadata merge, settle never invoked), and on
the settlement-failure paths a fresh error result with empty metadata
is returned — no settlement confirmation is injected anywhere else. -/
theorem C9_confirmation_merge_frame
    (tools : List ToolDefinition) (config : ServerConfig) (envUrl : Option String)
    (toolName : String) (payment : Option String) (env : CallEnv)
    (toolDef : ToolDefinition) (paymentConfigs : List PaymentConfig) (p : String)
    (d : DecodedPayment) (net : String) (selectedConfig : PaymentConfig)
    (fac : FacilitatorConfig) (v : FacResult) (hr : ToolResult)
    (hfind : tools.find? (fun t => t.name = toolName) = some toolDef)
    (hpaid : toolDef.payments = some paymentConfigs)
    (hpay : payment = some p) (hp : p ≠ "")
    (hdec : env.decodePayment = JsResult.ok d)
    (hnet : d.network = some net) (hne : net ≠ "")
    (hcfg : paymentConfigs.find? (fun cfg => cfg.network = net) = some selectedConfig)
    (hfac : config.facilitators.lookup net = some fac)
    (hver : env.verifyOutcome = JsResult.ok v) (hval : v.isValid = some true)
    (hargs : env.parseArgs = JsResult.ok ())
    (hh : env.handlerOutcome = JsResult.ok hr) :
    (jsTruthy hr.isError = true →
      handleToolCall tools config envUrl toolName payment env =
        JsResult.ok (hr,
          [Event.verifyCall (buildPaymentRequirements selectedConfig config.recipient
              (jsOr envUrl "http://localhost:3000") toolName toolDef.description),
            Event.handlerCall])) ∧
    (jsTruthy hr.isError = false →
      (∀ s, env.settleOutcome = JsResult.ok s → jsTruthy s.success = true →
        handleToolCall tools config envUrl toolName payment env =
          JsResult.ok ({ hr with meta := some (metaSet (hr.meta.getD [])
              "x402.payment-response" (MetaVal.paymentResponse true s.txHash)) },
            [Event.verifyCall (buildPaymentRequirements selectedConfig config.recipient
                (jsOr envUrl "http://localhost:3000") toolName toolDef.description),
              Event.handlerCall,
              Event.settleCall (buildPaymentRequirements selectedConfig config.recipient
                (jsOr envUrl "http://localhost:3000") toolName toolDef.description)]) ∧
        ({ hr with meta := some (metaSet (hr.meta.getD [])
            "x402.payment-response" (MetaVal.paymentResponse true s.txHash)) } :
            ToolResult).content = hr.content ∧
        ({ hr with meta := some (metaSet (hr.meta.getD [])
            "x402.payment-response" (MetaVal.paymentResponse true s.txHash)) } :
            ToolResult).isError = hr.isError ∧
        (metaSet (hr.meta.getD []) "x402.payment-response"
            (MetaVal.paymentResponse true s.txHash)).lookup "x402.payment-response"
          = some (MetaVal.paymentResponse true s.txHash) ∧
        (∀ k, k ≠ "x402.payment-response" →
          (metaSet (hr.meta.getD []) "x402.payment-response"
              (MetaVal.paymentResponse true s.txHash)).lookup k
            = (hr.meta.getD []).lookup k)) ∧
      (∀ m, env.settleOutcome = JsResult.thrown m →
        handleToolCall tools config envUrl toolName payment env =
          JsResult.ok (errResult (errText "Payment settlement error" m),
            [Event.verifyCall (buildPaymentRequirements selectedConfig config.recipient
                (jsOr envUrl "http://localhost:3000") toolName toolDef.description),
              Event.handlerCall,
              Event.settleCall (buildPaymentRequirements selectedConfig config.recipient
                (jsOr envUrl "http://localhost:3000") toolName toolDef.description)]) ∧
        (errResult (errText "Payment settlement error" m)).meta = none) ∧
      (∀ s, env.settleOutcome = JsResult.ok s → jsTruthy s.success = false →
        handleToolCall tools config envUrl toolName payment env =
          JsResult.ok (errResult (errText "Payment settlement failed"
              (jsOr s.errorReason "Settlement unsuccessful")),
            [Event.verifyCall (buildPaymentRequirements selectedConfig config.recipient
                (jsOr envUrl "http://localhost:3000") toolName toolDef.description),
              Event.handlerCall,
              Event.settleCall (buildPaymentRequirements selectedConfig config.recipient
                (jsOr envUrl "http://localhost:3000") toolName toolDef.description)]) ∧
        (errResult (errText "Payment settlement failed"
          (jsOr s.errorReason "Settlement unsuccessful"))).meta = none)) := by
  constructor
  · intro hie
    have hie2 := (jsTruthy_true_iff hr.isError).mp hie
    simp [handleToolCall, hfind, hpaid, hpay, jsStrTruthy, hp, paidFlow, hdec, hnet, hne,
      hcfg, hfac, hver, hval, hargs, hh, hie2]
  · intro hnie
    have hie := (jsTruthy_false_iff hr.isError).mp hnie
    refine ⟨?_, ?_, ?_⟩
    · intro s hs hsc
      have hsc2 := (jsTruthy_true_iff s.success).mp hsc
      refine ⟨?_, rfl, rfl, metaSet_lookup_self _ _ _, fun k hk => metaSet_lookup_ne _ _ _ _ hk⟩
      simp [handleToolCall, hfind, hpaid, hpay, jsStrTruthy, hp, paidFlow, hdec, hnet, hne,
        hcfg, hfac, hver, hval, hargs, hh, hie, hs, hsc2]
    · intro m hm
      refine ⟨?_, rfl⟩
      simp [handleToolCall, hfind, hpaid, hpay, jsStrTruthy, hp, paidFlow, hdec, hnet, hne,
        hcfg, hfac, hver, hval, hargs, hh, hie, hm]
    · intro s hs hsc
      have hsc2 := (jsTruthy_false_iff s.success).mp hsc
      refine ⟨?_, rfl⟩
      simp [handleToolCall, hfind, hpaid, hpay, jsStrTruthy, hp, paidFlow, hdec, hnet, hne,
        hcfg, hfac, hver, hval, hargs, hh, hie, hs, hsc2]

/-- Witness for `C9_confirmation_merge_frame`: the fixture call whose
settle responds `{success: true, txHash: "0xhash"}`. -/
theorem C9_confirmation_merge_frame_witness :
    wEnvSettled.settleOutcome = JsResult.ok wSettleOk ∧
    jsTruthy wSettleOk.success = true ∧
    jsTruthy wHandlerRes.isError = false ∧
    (handleToolCall wTools wServerCfg none "t" (some "proof") wEnvSettled =
      JsResult.ok ({ wHandlerRes with meta := some (metaSet (wHandlerRes.meta.getD [])
          "x402.payment-response" (MetaVal.paymentResponse true wSettleOk.txHash)) },
        [Event.verifyCall (buildPaymentRequirements wCfg wServerCfg.recipient
            (jsOr none "http://localhost:3000") "t" wToolDef.description),
          Event.handlerCall,
          Event.settleCall (buildPaymentRequirements wCfg wServerCfg.recipient
            (jsOr none "http://localhost:3000") "t" wToolDef.description)]) ∧
      ({ wHandlerRes with meta := some (metaSet (wHandlerRes.meta.getD [])
          "x402.payment-response" (MetaVal.paymentResponse true wSettleOk.txHash)) } :
          ToolResult).content = wHandlerRes.content ∧
      ({ wHandlerRes with meta := some (metaSet (wHandlerRes.meta.getD [])
          "x402.payment-response" (MetaVal.paymentResponse true wSettleOk.txHash)) } :
          ToolResult).isError = wHandlerRes.isError ∧
      (metaSet (wHandlerRes.meta.getD []) "x402.payment-response"
          (MetaVal.paymentResponse true wSettleOk.txHash)).lookup "x402.payment-response"
        = some (MetaVal.paymentResponse true wSettleOk.txHash) ∧
      (∀ k, k ≠ "x402.payment-response" →
        (metaSet (wHandlerRes.meta.getD []) "x402.payment-response"
            (MetaVal.paymentResponse true wSettleOk.txHash)).lookup k
          = (wHandlerRes.meta.getD []).lookup k)) :=
  ⟨by decide, by decide, by decide,
   ((C9_confirmation_merge_frame wTools wServerCfg none "t" (some "proof") wEnvSettled
      wToolDef [wCfg] "proof" wPay "xlayer" wCfg wFacOkx wVerifyOk wHandlerRes
      (by decide) (by decide) rfl (by decide) (by decide) (by decide) (by decide)
      (by decide) (by decide) (by decide) (by decide) (by decide) (by decide)).2
     (by decide)).1 wSettleOk (by decide) (by decide)⟩

end X402

namespace X402

/-! ### Claim C1 (lifecycle ordering) -/

/-- Claim C1: on any call to a paid operation, settle is invoked only if
verify returned `isValid = true`, the handler was invoked, and the
handler's result was not error-flagged; verify precedes the handler
invocation, the handler invocation precedes settle (the only trace with
a settle event is `[verify, handler, settle]`, with the same payment
requirements passed to verify and settle), and settle is invoked at
most once per call. -/
theorem C1_lifecycle_ordering
    (tools : List ToolDefinition) (config : ServerConfig) (envUrl : Option String)
    (toolName : String) (payment : Option String) (env : CallEnv)
    (toolDef : ToolDefinition) (paymentConfigs : List PaymentConfig)
    (res : ToolResult) (tr : List Event)
    (hfind : tools.find? (fun t => t.name = toolName) = some toolDef)
    (hpaid : toolDef.payments = some paymentConfigs)
    (hcall : handleToolCall tools config envUrl toolName payment env
      = JsResult.ok (res, tr)) :
    (tr.filter Event.isSettle).length ≤ 1 ∧
    ((∃ q, Event.settleCall q ∈ tr) →
      (∃ v, env.verifyOutcome = JsResult.ok v ∧ v.isValid = some true) ∧
      (∃ r, env.handlerOutcome = JsResult.ok r ∧ r.isError ≠ some true) ∧
      ∃ q, tr = [Event.verifyCall q, Event.handlerCall, Event.settleCall q]) ∧
    (Event.handlerCall ∈ tr →
      ∃ q rest, tr = Event.verifyCall q :: Event.handlerCall :: rest) := by
  simp only [handleToolCall, hfind, hpaid] at hcall
  by_cases hp : jsStrTruthy payment = false
  · rw [if_pos hp] at hcall
    injection hcall with hpair
    injection hpair with h1 h2
    subst h2
    exact ⟨by simp, by simp, by simp⟩
  · rw [if_neg hp] at hcall
    injection hcall with hpair
    simp only [paidFlow] at hpair
    iterate 12 (all_goals (try split at hpair))
    all_goals (injection hpair with h1 h2)
    all_goals (subst h2)
    all_goals (try subst h1)
    all_goals simp_all [Event.isSettle]

/-- Witness for `C1_lifecycle_ordering`: the fixture call that reaches
successful settlement, whose trace is `[verify, handler, settle]`. -/
theorem C1_lifecycle_ordering_witness :
    (handleToolCall wTools wServerCfg none "t" (some "proof") wEnvSettled =
      JsResult.ok (wResSettled, wTraceFull)) ∧
    ((wTraceFull.filter Event.isSettle).length ≤ 1 ∧
      ((∃ q, Event.settleCall q ∈ wTraceFull) →
        (∃ v, wEnvSettled.verifyOutcome = JsResult.ok v ∧ v.isValid = some true) ∧
        (∃ r, wEnvSettled.handlerOutcome = JsResult.ok r ∧ r.isError ≠ some true) ∧
        ∃ q, wTraceFull = [Event.verifyCall q, Event.handlerCall, Event.settleCall q]) ∧
      (Event.handlerCall ∈ wTraceFull →
        ∃ q rest, wTraceFull = Event.verifyCall q :: Event.handlerCall :: rest)) :=
  ⟨by decide,
   C1_lifecycle_ordering wTools wServerCfg none "t" (some "proof") wEnvSettled
     wToolDef [wCfg] wResSettled wTraceFull (by decide) (by decide) (by decide)⟩

end X402
